import Mathlib

/-!
A shallow embedding of the ensime-vim client/session logic
(`ensime_shared/client.py` and `ensime_shared/launcher.py`) together with
proofs of the behavioural properties stated in the specification.

Modelling conventions:

* The client object state (`EnsimeClient`) becomes an explicit `Client`
  record, threaded through every operation.
* Network and editor effects are resolved by an `Env` oracle: the outcome of
  the i-th websocket connect attempt (`connectOk i`), the outcome of the
  i-th wire send (`sendOk i`), server readiness, launcher outcomes and the
  editor buffer/cursor state.
* Observable effects (wire messages sent, handler dispatches, logged errors,
  user-facing warnings, connect attempts) are recorded in ghost trace fields
  of `Client`; the source only performs them.
* Python exceptions that are caught by the `catch` context manager
  (`util.py`, whose semantics per the spec is: run the handler, swallow the
  exception) are ordinary control flow here.  An exception that escapes a
  method is modelled as an `Option PyErr` result component while the mutated
  state is kept, matching Python object-attribute mutation semantics.
* Request/response bodies beyond the generic envelope (`typehint`, `point`)
  are out of the spec's scope (spec section 1) and are not modelled.
-/

namespace EnsimeVim

/-- A response payload: only its `typehint` participates in dispatch. -/
structure Payload where
  typehint : String
  deriving Repr, DecidableEq

/-- A raw inbound frame sitting in the queue.

`malformed` stands for any frame on which decoding raises
(`json.loads` failure, or an envelope without a `payload` key, for which
`_json["payload"]` raises `KeyError`); `valid cid p` is a decodable envelope
with optional `callId` and a `payload` field that is either a JSON object
(`some p`) or `null` (`none`). -/
inductive RawMsg where
  | malformed : RawMsg
  | valid : Option Nat → Option Payload → RawMsg
  deriving Repr, DecidableEq

/-- An outgoing request body.  Only the envelope-level parts the session
logic inspects are modelled: the `typehint` tag and an optional `point`
computed by `get_position`. -/
structure Request where
  typehint : String
  point : Option Nat
  deriving Repr, DecidableEq

/-- Per-call options stored in `call_options` (the correlation registry).
The fields are the exact keys the client code stores. -/
structure CallOpts where
  split : Bool
  vert : Bool
  open_definition : Bool
  display : Bool
  browse : Bool
  word_under_cursor : Option String
  false_resp_msg : Option String
  deriving Repr, DecidableEq

/-- Default-constructed options dict `{}` extended below per call site. -/
def CallOpts.empty : CallOpts :=
  ⟨false, false, false, false, false, none, none⟩

/-- The environment oracle: outcomes of network operations and the state of
the external collaborators (editor binding, launcher). -/
structure Env where
  connectOk : Nat → Bool
  sendOk : Nat → Bool
  isReady : Bool
  installed : Bool
  launchOk : Bool
  buffer : List String
  cursorRow : Nat
  cursorCol : Nat
  currentWord : String
  wordStartRow : Nat
  wordStartCol : Nat
  wordEndRow : Nat
  wordEndCol : Nat

/-- The mutable state of `EnsimeClient`, plus ghost observation traces. -/
structure Client where
  running : Bool
  ws : Bool
  call_id : Nat
  call_options : List (Nat × CallOpts)
  refactor_id : Nat
  queue : List RawMsg
  connection_attempts : Nat
  number_try_connection : Nat
  toggle_teardown : Bool
  ensime : Bool
  ensime_server : Bool
  full_types_enabled : Bool
  sent : List (Nat × Request)
  dispatched : List (Option Nat × Payload)
  wire_connects : Nat
  wire_sends : Nat
  errors_logged : Nat
  warnings_shown : Nat
  ensime_stopped : Bool
  deriving Repr, DecidableEq

/-- The state established by `EnsimeClient.__init__` (client.py lines
98-128): no websocket, `call_id = 0`, empty `call_options`,
`refactor_id = 1`, `connection_attempts = 0`, `number_try_connection = 1`,
teardown toggled on, running. -/
def initialClient : Client where
  running := true
  ws := false
  call_id := 0
  call_options := []
  refactor_id := 1
  queue := []
  connection_attempts := 0
  number_try_connection := 1
  toggle_teardown := true
  ensime := false
  ensime_server := false
  full_types_enabled := false
  sent := []
  dispatched := []
  wire_connects := 0
  wire_sends := 0
  errors_logged := 0
  warnings_shown := 0
  ensime_stopped := false

/-- A Python exception escaping a modelled method. -/
inductive PyErr where
  | unboundLocal : PyErr
  | attributeError : PyErr
  deriving Repr, DecidableEq

/-- Python dict assignment `d[k] = v` on the `call_options` dict. -/
def dictInsert (k : Nat) (v : CallOpts) :
    List (Nat × CallOpts) → List (Nat × CallOpts)
  | [] => [(k, v)]
  | (k1, v1) :: rest =>
      if k = k1 then (k, v) :: rest else (k1, v1) :: dictInsert k v rest

/-- Python `d.get(k)` on the `call_options` dict. -/
def dictGet (k : Nat) : List (Nat × CallOpts) → Option CallOpts
  | [] => none
  | (k1, v1) :: rest => if k = k1 then some v1 else dictGet k rest

/-- `EnsimeClient.get_position` (client.py lines 308-315): starting from
`col`, add `len(line) + 1` for each buffer line strictly before `row`
(Python slice `getlines()[:row - 1]`). -/
def get_position (buffer : List String) (row col : Nat) : Nat :=
  List.foldl (fun result l => result + (l.length + 1)) col (buffer.take (row - 1))

/-- Modelled from the spec: `handle_incoming_response` lives in
`protocol.py`, which is not present in the sources.  Per the spec
(sections 4.4 and 4.5) it routes the payload to the handler keyed by
`payload.typehint`, with the correlation entry for `call_id` read but never
removed.  We record the dispatch observably by appending the
`(callId, payload)` pair to the `dispatched` trace; `call_options` is left
untouched. -/
def handle_incoming_response (c : Client) (callId : Option Nat) (p : Payload) :
    Client :=
  { c with dispatched := c.dispatched ++ [(callId, p)] }

/-- `EnsimeClient.send` (client.py lines 211-228).  Note that the inner
`send_it` wraps the wire send in `catch(Exception, self.log.error)`, so a
failed wire send is logged inside `send_it` and never reaches the outer
`catch(Exception, reconnect)`: the `reconnect` handler is unreachable and no
connect attempt is ever made here. -/
def send (env : Env) (c : Client) (m : Nat × Request) : Client :=
  if c.running && c.ws then
    let i := c.wire_sends
    let c1 := { c with wire_sends := i + 1 }
    if env.sendOk i then { c1 with sent := c1.sent ++ [m] }
    else { c1 with errors_logged := c1.errors_logged + 1 }
  else c

/-- `EnsimeClient.send_request` (client.py lines 596-606): send the envelope
`{callId: self.call_id, req: request}`, then capture the counter, increment
it, and return the captured value. -/
def send_request (env : Env) (c : Client) (req : Request) : Client × Nat :=
  let c1 := send env c (c.call_id, req)
  let call_id := c1.call_id
  ({ c1 with call_id := c1.call_id + 1 }, call_id)

/-- `EnsimeClient.shutdown_server` (client.py lines 262-266). -/
def shutdown_server (c : Client) : Client :=
  if c.ensime && c.toggle_teardown then { c with ensime_stopped := true } else c

/-- The local `disable_completely` handler of `connect_ensime_server`
(client.py lines 235-239): log the error if there is one, shut the server
down, display the websocket warning. -/
def disable_completely (haveErr : Bool) (c : Client) : Client :=
  let c1 :=
    if haveErr then { c with errors_logged := c.errors_logged + 1 } else c
  let c2 := shutdown_server c1
  { c2 with warnings_shown := c2.warnings_shown + 1 }

/-- `EnsimeClient.connect_ensime_server` (client.py lines 230-260).

If running with retry budget left, decrement the budget, resolve the server
address (reading the port requires a launched process: with `ensime_server`
unset and no `ensime` handle, `self.ensime.http_port()` raises), then
attempt the websocket connect under `catch(Exception, disable_completely)`.
On success `gotws = True` and a `ConnectionInfoReq` is sent.  On failure the
exception is swallowed after `disable_completely`, but the local `gotws` was
never assigned, so the following `if gotws:` raises `UnboundLocalError`,
which escapes the method.  With no budget left, `disable_completely(None)`
runs and no connect is attempted. -/
def connect_ensime_server (env : Env) (c : Client) : Client × Option PyErr :=
  if c.running && c.number_try_connection != 0 then
    let c1 := { c with number_try_connection := c.number_try_connection - 1 }
    if !c1.ensime_server && !c1.ensime then (c1, some PyErr.attributeError)
    else
      let c2 := { c1 with ensime_server := true }
      let i := c2.wire_connects
      let c3 := { c2 with wire_connects := i + 1 }
      if env.connectOk i then
        let c4 := { c3 with ws := true }
        ((send_request env c4 ⟨"ConnectionInfoReq", none⟩).1, none)
      else
        (disable_completely true c3, some PyErr.unboundLocal)
  else
    (disable_completely false c, none)

/-- The local `lazy_initialize_ensime` of `EnsimeClient.setup` (client.py
lines 176-196; the Lean name shortens the Python one).  If no server handle
exists: refuse when the server is not installed and bootstrapping is off
(prompting unless quiet), otherwise launch it, swallowing
`InvalidJavaPathError`.  Returns `bool(self.ensime)`. -/
def lazy_init_ensime (env : Env) (c : Client) (bootstrap_server : Bool) :
    Client × Bool :=
  if c.ensime then (c, true)
  else if !env.installed && !bootstrap_server then (c, false)
  else if env.launchOk then ({ c with ensime := true }, true)
  else (c, false)

/-- `EnsimeClient.setup` (client.py lines 174-204):
`self.running and lazy_initialize_ensime() and ready_to_connect()`, where
`ready_to_connect` connects when there is no websocket and the launched
process is ready, and returns `True`.  An exception escaping the connect
propagates. -/
def setup (env : Env) (c : Client) (_quiet bootstrap_server : Bool) :
    Client × Option PyErr × Bool :=
  if !c.running then (c, none, false)
  else
    let p := lazy_init_ensime env c bootstrap_server
    if p.2 then
      if !p.1.ws && env.isReady then
        let q := connect_ensime_server env p.1
        (q.1, q.2, q.2.isNone)
      else (p.1, none, true)
    else (p.1, none, false)

/-- Decodability of a raw frame (`json.loads` and the `payload` key access
succeed). -/
def decode_ok : RawMsg → Bool
  | RawMsg.malformed => false
  | RawMsg.valid _ _ => true

/-- The payload dispatched for a frame, if any: present and non-null. -/
def payload_of : RawMsg → Option Payload
  | RawMsg.valid _ (some p) => some p
  | _ => none

/-- The optional `callId` of a decodable frame (`_json.get("callId")`). -/
def callid_of : RawMsg → Option Nat
  | RawMsg.valid cid _ => cid
  | RawMsg.malformed => none

/-- The handler invocations a single frame gives rise to: exactly one when
it decodes with a non-null payload, none otherwise. -/
def dispatch_of : RawMsg → List (Option Nat × Payload)
  | RawMsg.valid cid (some p) => [(cid, p)]
  | _ => []

/-- `EnsimeClient.unqueue` (client.py lines 623-643), body wrapped in
`catch(Exception, self.log.error)`.  With `timeout == 0` and an empty queue
the guard fails and nothing happens.  Otherwise one message is awaited: an
empty queue times the future out (logged at debug level, future cancelled,
`False`); a malformed head raises out of `json.loads`, is caught and logged,
yielding `False`; a decodable head dispatches via `handle_incoming_response`
exactly when its `payload` is non-null, and yields `True`. -/
def unqueue (c : Client) (timeout : Nat) : Client × Bool :=
  if timeout != 0 || !c.queue.isEmpty then
    match c.queue with
    | [] => (c, false)
    | m :: rest =>
        let c1 := { c with queue := rest }
        match m with
        | RawMsg.malformed =>
            ({ c1 with errors_logged := c1.errors_logged + 1 }, false)
        | RawMsg.valid cid p =>
            match p with
            | some pl => (handle_incoming_response c1 cid pl, true)
            | none => (c1, true)
  else (c, false)

/-- The `while self.unqueue(0)` loop of `unqueue_and_display`, with explicit
fuel.  Each `True` iteration shortens the queue, so
`queue.length + 1` fuel is enough for the loop to reach its natural exit. -/
def drain_loop : Client → Nat → Client
  | c, 0 => c
  | c, Nat.succ n =>
      match unqueue c 0 with
      | (c1, true) => drain_loop c1 n
      | (c1, false) => c1

/-- `EnsimeClient.unqueue_and_display` (client.py lines 670-675): when
running with a websocket, drain with `unqueue(0)` until it returns `False`
(the `lazy_display_error` editor call is pure UI and is not modelled). -/
def unqueue_and_display (c : Client) : Client :=
  if c.running && c.ws then drain_loop c (c.queue.length + 1) else c

/-- `EnsimeClient.tick` (client.py lines 677-686): below 1000 accumulated
attempts, `setup(True, False)` then increment `connection_attempts`; an
exception escaping `setup` skips the increment and the drain and escapes
`tick`.  Finally `unqueue_and_display`. -/
def tick (env : Env) (c : Client) : Client × Option PyErr :=
  if c.connection_attempts < 1000 then
    let p := setup env c true false
    if p.2.1.isSome then (p.1, p.2.1)
    else
      let c2 := { p.1 with connection_attempts := p.1.connection_attempts + 1 }
      (unqueue_and_display c2, none)
  else (unqueue_and_display c, none)

/-- One successful receive of `EnsimeClient.queue_poll` (client.py lines
134-161): while running, if a websocket exists, a received frame is appended
to the queue with `put_nowait`. -/
def queue_poll_step (c : Client) (raw : RawMsg) : Client :=
  if c.running && c.ws then { c with queue := c.queue ++ [raw] } else c

/-- `EnsimeClient.teardown` (client.py lines 268-273). -/
def teardown (c : Client) : Client :=
  shutdown_server { c with running := false }

/-- `EnsimeClient.send_at_point` (client.py lines 351-357).  The request
body (`fileInfo` and so on) beyond the envelope is out of scope; the
computed position is kept as the request `point`. -/
def send_at_point (env : Env) (c : Client) (what : String) (row col : Nat) :
    Client :=
  let pos := get_position env.buffer row col
  (send_request env c ⟨what ++ "AtPointReq", some pos⟩).1

/-- `EnsimeClient.send_at_position` (client.py lines 275-294) with
`useSelection = False`: the range endpoints come from
`word_under_cursor_pos()`; the request carries `{from: beg, to: end}`, which
we abstract to its start position (request bodies are out of scope). -/
def send_at_position (env : Env) (c : Client) (what : String) : Client :=
  let beg := get_position env.buffer env.wordStartRow env.wordStartCol
  let _end := get_position env.buffer env.wordEndRow env.wordEndCol
  (send_request env c ⟨what ++ "AtPointReq", some beg⟩).1

/-- `EnsimeClient.symbol_by_name` (client.py lines 324-340): with no
arguments, only an editor message; otherwise store
`{"split": True, "vert": True, "open_definition": True}` under the current
`call_id` and send a `SymbolByNameReq`. -/
def symbol_by_name (env : Env) (c : Client) (args : List String) : Client :=
  if args.isEmpty then c
  else
    let opts :=
      { CallOpts.empty with split := true, vert := true, open_definition := true }
    let c1 := { c with call_options := dictInsert c.call_id opts c.call_options }
    (send_request env c1 ⟨"SymbolByNameReq", none⟩).1

/-- `EnsimeClient.symbol_at_point_req` (client.py lines 395-409): update the
existing options entry for the current `call_id` in place, or create one
(the stored dicts are never empty, so `if opts:` is truth of presence);
then send a `SymbolAtPointReq` at the cursor position plus one. -/
def symbol_at_point_req (env : Env) (c : Client)
    (open_definition display : Bool) : Client :=
  let opts :=
    match dictGet c.call_id c.call_options with
    | some o => { o with open_definition := open_definition, display := display }
    | none =>
        { CallOpts.empty with open_definition := open_definition, display := display }
  let c1 := { c with call_options := dictInsert c.call_id opts c.call_options }
  let pos := get_position env.buffer env.cursorRow env.cursorCol
  (send_request env c1 ⟨"SymbolAtPointReq", some (pos + 1)⟩).1

/-- `EnsimeClient.open_declaration` (client.py lines 423-425). -/
def open_declaration (env : Env) (c : Client) : Client :=
  symbol_at_point_req env c true false

/-- `EnsimeClient.open_declaration_split` (client.py lines 427-434): store
`{"split": True}`, with `"vert": True` when `"v"` is among the arguments,
then behave as `open_declaration`. -/
def open_declaration_split (env : Env) (c : Client) (args : List String) :
    Client :=
  let opts :=
    if args.contains "v" then { CallOpts.empty with split := true, vert := true }
    else { CallOpts.empty with split := true }
  let c1 := { c with call_options := dictInsert c.call_id opts c.call_options }
  symbol_at_point_req env c1 true false

/-- `EnsimeClient.symbol` (client.py lines 436-438). -/
def symbol (env : Env) (c : Client) : Client :=
  symbol_at_point_req env c false true

/-- `EnsimeClient.usages` (client.py lines 465-472): store the word under
the cursor and a failure message under the current `call_id`, then request
`UsesOfSymbol` at the cursor. -/
def usages (env : Env) (c : Client) : Client :=
  let opts :=
    { CallOpts.empty with
        word_under_cursor := some env.currentWord,
        false_resp_msg := some "Not a valid symbol under the cursor" }
  let c1 := { c with call_options := dictInsert c.call_id opts c.call_options }
  send_at_point env c1 "UsesOfSymbol" env.cursorRow env.cursorCol

/-- `EnsimeClient.doc_browse` (client.py lines 474-478): store
`{"browse": True}` under the current `call_id`, then request the doc URI at
the word under the cursor. -/
def doc_browse (env : Env) (c : Client) : Client :=
  let c1 :=
    { c with call_options :=
        dictInsert c.call_id { CallOpts.empty with browse := true } c.call_options }
  send_at_position env c1 "DocUri"

/-- `EnsimeClient.complete` (client.py lines 342-349). -/
def complete (env : Env) (c : Client) (row col : Nat) : Client :=
  let pos := get_position env.buffer row col
  (send_request env c ⟨"CompletionsReq", some pos⟩).1

/-- `EnsimeClient.suggest_import` (client.py lines 440-449). -/
def suggest_import (env : Env) (c : Client) : Client :=
  let pos := get_position env.buffer env.cursorRow env.cursorCol
  (send_request env c ⟨"ImportSuggestionsReq", some pos⟩).1

/-- `EnsimeClient.inspect_type` (client.py lines 451-458). -/
def inspect_type (env : Env) (c : Client) : Client :=
  let pos := get_position env.buffer env.cursorRow env.cursorCol
  (send_request env c ⟨"InspectTypeAtPointReq", some pos⟩).1

/-- `EnsimeClient.type_check` (client.py lines 615-621); `clean_errors` is
pure editor UI. -/
def type_check (env : Env) (c : Client) : Client :=
  (send_request env c ⟨"TypecheckFilesReq", none⟩).1

/-- The operations of a session, closing the modelled client surface, for
stating properties quantified over every operation. -/
inductive Op where
  | opTick : Op
  | opSetup : Bool → Bool → Op
  | opConnect : Op
  | opSend : Nat × Request → Op
  | opSendRequest : Request → Op
  | opUnqueue : Nat → Op
  | opUnqueueAndDisplay : Op
  | opQueuePoll : RawMsg → Op
  | opTeardown : Op
  | opSymbolByName : List String → Op
  | opSymbolAtPointReq : Bool → Bool → Op
  | opOpenDeclaration : Op
  | opOpenDeclarationSplit : List String → Op
  | opSymbol : Op
  | opUsages : Op
  | opDocBrowse : Op
  | opComplete : Nat → Nat → Op
  | opSuggestImport : Op
  | opInspectType : Op
  | opTypeCheck : Op

/-- The state transformer of an operation (return values and escaping
exceptions projected away; the Python object state survives both). -/
def applyOp (env : Env) : Op → Client → Client
  | Op.opTick, c => (tick env c).1
  | Op.opSetup q b, c => (setup env c q b).1
  | Op.opConnect, c => (connect_ensime_server env c).1
  | Op.opSend m, c => send env c m
  | Op.opSendRequest r, c => (send_request env c r).1
  | Op.opUnqueue t, c => (unqueue c t).1
  | Op.opUnqueueAndDisplay, c => unqueue_and_display c
  | Op.opQueuePoll raw, c => queue_poll_step c raw
  | Op.opTeardown, c => teardown c
  | Op.opSymbolByName args, c => symbol_by_name env c args
  | Op.opSymbolAtPointReq od d, c => symbol_at_point_req env c od d
  | Op.opOpenDeclaration, c => open_declaration env c
  | Op.opOpenDeclarationSplit args, c => open_declaration_split env c args
  | Op.opSymbol, c => symbol env c
  | Op.opUsages, c => usages env c
  | Op.opDocBrowse, c => doc_browse env c
  | Op.opComplete row col, c => complete env c row col
  | Op.opSuggestImport, c => suggest_import env c
  | Op.opInspectType, c => inspect_type env c
  | Op.opTypeCheck, c => type_check env c

/-- Folding a sequence of operations over a client state. -/
def applyOps (env : Env) (ops : List Op) (c : Client) : Client :=
  List.foldl (fun s op => applyOp env op s) c ops

/-- Iterated `send_request`, returning the list of returned call ids. -/
def sendMany (env : Env) (c : Client) : List Request → Client × List Nat
  | [] => (c, [])
  | r :: rs =>
      let p := send_request env c r
      let q := sendMany env p.1 rs
      (q.1, p.2 :: q.2)

/-- Iterated `unqueue` with a non-zero timeout. -/
def unqueueN (c : Client) : Nat → Client
  | 0 => c
  | Nat.succ n => unqueueN (unqueue c 1).1 n

/-- A handle on an OS subprocess: `poll` is `none` while the process is
still running, and the exit code once it has finished
(`subprocess.Popen.poll` semantics). -/
structure Subprocess where
  poll : Option Int
  deriving Repr, DecidableEq

/-- `EnsimeProcess` (launcher.py lines 20-41): the launched-server handle.
`__init__` stores the (possibly absent) OS process and sets
`__stopped_manually = False`; the path and cleanup bookkeeping does not
affect the modelled predicates. -/
structure EnsimeProcess where
  process : Option Subprocess
  stopped_manually : Bool
  deriving Repr, DecidableEq

/-- `EnsimeProcess.__init__` (launcher.py lines 22-27). -/
def mkEnsimeProcess (process : Option Subprocess) : EnsimeProcess :=
  ⟨process, false⟩

/-- `EnsimeProcess.is_running` (launcher.py lines 39-41):
`self.process is None or self.process.poll() is None`. -/
def is_running (p : EnsimeProcess) : Bool :=
  match p.process with
  | none => true
  | some pr => pr.poll.isNone

/-- `EnsimeProcess.aborted` (launcher.py lines 36-37):
`not (self.__stopped_manually or self.is_running())`. -/
def aborted (p : EnsimeProcess) : Bool :=
  !(p.stopped_manually || is_running p)

/-- `EnsimeProcess.stop` (launcher.py lines 29-34): with no OS process it
returns immediately; otherwise it signals the process, runs cleanup, and
records the manual stop. -/
def stop (p : EnsimeProcess) : EnsimeProcess :=
  match p.process with
  | none => p
  | some _ => { p with stopped_manually := true }

/-- A concrete environment used in theorem witnesses: wire sends succeed,
every websocket connect attempt fails, the server is installed and ready. -/
def envW : Env where
  connectOk := fun _ => false
  sendOk := fun _ => true
  isReady := true
  installed := true
  launchOk := true
  buffer := ["ab", "c", "def"]
  cursorRow := 1
  cursorCol := 1
  currentWord := "w"
  wordStartRow := 1
  wordStartCol := 0
  wordEndRow := 1
  wordEndCol := 1

/-- A concrete client holding one correlation entry, used in witnesses. -/
def clientW : Client :=
  { initialClient with call_options := [(0, CallOpts.empty)] }

/-- A concrete connected client with an empty queue, used in witnesses. -/
def clientConnected : Client :=
  { initialClient with ws := true, ensime := true }

/-- A concrete running, connected client whose queue holds one malformed
frame followed by one valid frame, used in witnesses. -/
def clientBadGood : Client :=
  { initialClient with
      ws := true
      queue := [RawMsg.malformed, RawMsg.valid (some 0) (some ⟨"TypecheckResult"⟩)] }

/-- A concrete client whose queue holds one decodable frame, for
witnesses. -/
def clientOneMsg : Client :=
  { initialClient with
      queue := [RawMsg.valid (some 0) (some ⟨"TypecheckResult"⟩)] }

/-- A concrete running, connected client whose queue holds two decodable
frames, for witnesses. -/
def clientTwoMsgs : Client :=
  { initialClient with
      ws := true
      queue := [RawMsg.valid (some 0) (some ⟨"FrameA"⟩),
                RawMsg.valid none (some ⟨"FrameB"⟩)] }

/-- A concrete environment whose wire sends always fail, for witnesses. -/
def envSendFail : Env :=
  { envW with sendOk := fun _ => false }

/-- A concrete fresh client with a launched server handle, for witnesses. -/
def clientReady : Client :=
  { initialClient with ensime := true }

/-- Folding `List.foldl` of per-line increments into a sum. -/
theorem foldl_add_lengths (init : Nat) (ls : List String) :
    List.foldl (fun r l => r + (l.length + 1)) init ls
      = init + (List.map (fun l => l.length + 1) ls).sum := by
  induction ls generalizing init with
  | nil => simp
  | cons x xs ih => simp [List.foldl_cons, ih, Nat.add_assoc]

/-- C9: for every row at least 1, `get_position row col` equals `col` plus
the sum over the first `row - 1` buffer lines of (line length + 1); in
particular for `row = 1` it returns `col` whatever the buffer holds. -/
theorem get_position_spec (buffer : List String) (row col : Nat)
    (_h : 1 ≤ row) :
    get_position buffer row col
      = col + (List.map (fun l => l.length + 1) (List.take (row - 1) buffer)).sum
    ∧ get_position buffer 1 col = col := by
  exact ⟨foldl_add_lengths col (buffer.take (row - 1)), rfl⟩

/-- Witness for `get_position_spec` at a concrete buffer and position. -/
theorem get_position_spec_witness :
    1 ≤ 3
    ∧ (get_position ["ab", "c", "def"] 3 4
        = 4 + (List.map (fun l => l.length + 1) (List.take 2 ["ab", "c", "def"])).sum
      ∧ get_position ["ab", "c", "def"] 1 4 = 4) :=
  ⟨by decide, get_position_spec ["ab", "c", "def"] 3 4 (by decide)⟩

/-- `send` only touches the wire-send trace fields. -/
theorem send_shape (env : Env) (c : Client) (m : Nat × Request) :
    ∃ a b d, send env c m
      = { c with wire_sends := a, sent := b, errors_logged := d } := by
  unfold send
  split
  · by_cases hok : env.sendOk c.wire_sends = true
    · exact ⟨c.wire_sends + 1, c.sent ++ [m], c.errors_logged, by simp [hok]⟩
    · exact ⟨c.wire_sends + 1, c.sent, c.errors_logged + 1, by simp [hok]⟩
  · exact ⟨c.wire_sends, c.sent, c.errors_logged, rfl⟩

/-- `send_request` returns the entry value of the counter, increments it,
and otherwise only touches the wire-send trace fields. -/
theorem send_request_shape (env : Env) (c : Client) (r : Request) :
    ∃ a b d, send_request env c r
      = ({ c with
            call_id := c.call_id + 1, wire_sends := a, sent := b,
            errors_logged := d },
         c.call_id) := by
  obtain ⟨a, b, d, h⟩ := send_shape env c (c.call_id, r)
  exact ⟨a, b, d, by simp [send_request, h]⟩

/-- The ids returned by consecutive `send_request` calls are the integer
interval starting at the entry counter value. -/
theorem sendMany_ids (env : Env) (reqs : List Request) :
    ∀ c : Client, (sendMany env c reqs).2 = List.range' c.call_id reqs.length := by
  induction reqs with
  | nil => intro c; rfl
  | cons r rs ih =>
      intro c
      obtain ⟨a, b, d, h⟩ := send_request_shape env c r
      simp [sendMany, h, ih, List.range'_succ]

/-- `unqueue` with an empty queue does nothing and reports `False`. -/
theorem unqueue_empty (c : Client) (t : Nat) (h : c.queue = []) :
    unqueue c t = (c, false) := by
  unfold unqueue
  rw [h]
  split <;> rfl

/-- `unqueue` on a malformed head: pop, log, report `False`. -/
theorem unqueue_malformed (c : Client) (t : Nat) (rest : List RawMsg)
    (h : c.queue = RawMsg.malformed :: rest) :
    unqueue c t
      = ({ c with queue := rest, errors_logged := c.errors_logged + 1 },
         false) := by
  unfold unqueue
  rw [h]
  simp

/-- `unqueue` on a decodable head with non-null payload: pop, dispatch,
report `True`. -/
theorem unqueue_valid_some (c : Client) (t : Nat) (cid : Option Nat)
    (pl : Payload) (rest : List RawMsg)
    (h : c.queue = RawMsg.valid cid (some pl) :: rest) :
    unqueue c t
      = ({ c with queue := rest, dispatched := c.dispatched ++ [(cid, pl)] },
         true) := by
  unfold unqueue
  rw [h]
  simp [handle_incoming_response]

/-- `unqueue` on a decodable head with null payload: pop, no dispatch,
report `True`. -/
theorem unqueue_valid_none (c : Client) (t : Nat) (cid : Option Nat)
    (rest : List RawMsg) (h : c.queue = RawMsg.valid cid none :: rest) :
    unqueue c t = ({ c with queue := rest }, true) := by
  unfold unqueue
  rw [h]
  simp

/-- `unqueue` only touches the queue and the dispatch/error traces. -/
theorem unqueue_frame (c : Client) (t : Nat) :
    ∃ q d e, (unqueue c t).1
      = { c with queue := q, dispatched := d, errors_logged := e } := by
  match hq : c.queue with
  | [] => exact ⟨c.queue, c.dispatched, c.errors_logged, by rw [unqueue_empty c t hq]⟩
  | RawMsg.malformed :: rest =>
      exact ⟨_, _, _, by rw [unqueue_malformed c t rest hq]⟩
  | RawMsg.valid cid (some pl) :: rest =>
      exact ⟨_, _, _, by rw [unqueue_valid_some c t cid pl rest hq]⟩
  | RawMsg.valid cid none :: rest =>
      exact ⟨_, _, _, by rw [unqueue_valid_none c t cid rest hq]⟩

/-- The drain loop only touches the queue and the dispatch/error traces. -/
theorem drain_loop_frame (n : Nat) :
    ∀ c : Client, ∃ q d e, drain_loop c n
      = { c with queue := q, dispatched := d, errors_logged := e } := by
  induction n with
  | zero =>
      intro c
      exact ⟨c.queue, c.dispatched, c.errors_logged, rfl⟩
  | succ n ih =>
      intro c
      obtain ⟨q, d, e, h1⟩ := unqueue_frame c 0
      rcases hu : unqueue c 0 with ⟨c1, b⟩
      have hc1 : c1 = { c with queue := q, dispatched := d, errors_logged := e } := by
        rw [hu] at h1; exact h1
      cases b with
      | true =>
          obtain ⟨q2, d2, e2, h2⟩ := ih c1
          refine ⟨q2, d2, e2, ?_⟩
          rw [drain_loop, hu]
          show drain_loop c1 n = _
          rw [h2, hc1]
      | false =>
          refine ⟨q, d, e, ?_⟩
          rw [drain_loop, hu]
          exact hc1

/-- `unqueue_and_display` only touches the queue and the traces. -/
theorem unqueue_and_display_frame (c : Client) :
    ∃ q d e, unqueue_and_display c
      = { c with queue := q, dispatched := d, errors_logged := e } := by
  unfold unqueue_and_display
  split
  · exact drain_loop_frame (c.queue.length + 1) c
  · exact ⟨c.queue, c.dispatched, c.errors_logged, rfl⟩

/-- Projection of `send_request_shape`: the state counter is incremented. -/
theorem send_request_call_id (env : Env) (x : Client) (r : Request) :
    (send_request env x r).1.call_id = x.call_id + 1 := by
  obtain ⟨a, b, d, h⟩ := send_request_shape env x r
  rw [h]

/-- Projection of `send_request_shape`: `call_options` is untouched. -/
theorem send_request_call_options (env : Env) (x : Client) (r : Request) :
    (send_request env x r).1.call_options = x.call_options := by
  obtain ⟨a, b, d, h⟩ := send_request_shape env x r
  rw [h]

/-- Projection of `send_request_shape`: no connect attempt is made. -/
theorem send_request_wire_connects (env : Env) (x : Client) (r : Request) :
    (send_request env x r).1.wire_connects = x.wire_connects := by
  obtain ⟨a, b, d, h⟩ := send_request_shape env x r
  rw [h]

/-- Projection of `send_request_shape`: the retry budget is untouched. -/
theorem send_request_ntc (env : Env) (x : Client) (r : Request) :
    (send_request env x r).1.number_try_connection = x.number_try_connection := by
  obtain ⟨a, b, d, h⟩ := send_request_shape env x r
  rw [h]

/-- `disable_completely` only touches the error/warning/stop traces. -/
theorem disable_shape (b : Bool) (c : Client) :
    ∃ e w s, disable_completely b c
      = { c with
            errors_logged := e, warnings_shown := w, ensime_stopped := s } := by
  unfold disable_completely shutdown_server
  by_cases hc : (c.ensime && c.toggle_teardown) = true
  · cases b
    · exact ⟨c.errors_logged, c.warnings_shown + 1, true, by simp [hc]⟩
    · exact ⟨c.errors_logged + 1, c.warnings_shown + 1, true, by simp [hc]⟩
  · cases b
    · exact ⟨c.errors_logged, c.warnings_shown + 1, c.ensime_stopped, by simp [hc]⟩
    · exact ⟨c.errors_logged + 1, c.warnings_shown + 1, c.ensime_stopped,
        by simp [hc]⟩

/-- `lazy_initialize_ensime` can only set the `ensime` handle. -/
theorem lazy_init_fst (env : Env) (c : Client) (b : Bool) :
    ∃ en, (lazy_init_ensime env c b).1 = { c with ensime := en } := by
  unfold lazy_init_ensime
  split
  · exact ⟨c.ensime, rfl⟩
  · split
    · exact ⟨c.ensime, rfl⟩
    · split
      · exact ⟨true, rfl⟩
      · exact ⟨c.ensime, rfl⟩

/-- The call counter never decreases across `connect_ensime_server`. -/
theorem connect_call_id_mono (env : Env) (c : Client) :
    c.call_id ≤ (connect_ensime_server env c).1.call_id := by
  unfold connect_ensime_server
  split
  · by_cases ha : (!c.ensime_server && !c.ensime) = true
    · simp [ha]
    · by_cases hb : env.connectOk c.wire_connects = true
      · simp [ha, hb, send_request_call_id]
      · obtain ⟨e, w, s, h⟩ := disable_shape true
          { c with
              number_try_connection := c.number_try_connection - 1,
              ensime_server := true, wire_connects := c.wire_connects + 1 }
        simp [ha, hb, h]
  · obtain ⟨e, w, s, h⟩ := disable_shape false c
    simp [h]

/-- `connect_ensime_server` never touches `call_options`. -/
theorem connect_call_options (env : Env) (c : Client) :
    (connect_ensime_server env c).1.call_options = c.call_options := by
  unfold connect_ensime_server
  split
  · by_cases ha : (!c.ensime_server && !c.ensime) = true
    · simp [ha]
    · by_cases hb : env.connectOk c.wire_connects = true
      · simp [ha, hb, send_request_call_options]
      · obtain ⟨e, w, s, h⟩ := disable_shape true
          { c with
              number_try_connection := c.number_try_connection - 1,
              ensime_server := true, wire_connects := c.wire_connects + 1 }
        simp [ha, hb, h]
  · obtain ⟨e, w, s, h⟩ := disable_shape false c
    simp [h]

/-- Projection of `lazy_init_fst`: the counter is untouched. -/
theorem lazy_init_call_id (env : Env) (c : Client) (b : Bool) :
    (lazy_init_ensime env c b).1.call_id = c.call_id := by
  obtain ⟨en, he⟩ := lazy_init_fst env c b
  rw [he]

/-- Projection of `lazy_init_fst`: `call_options` is untouched. -/
theorem lazy_init_call_options (env : Env) (c : Client) (b : Bool) :
    (lazy_init_ensime env c b).1.call_options = c.call_options := by
  obtain ⟨en, he⟩ := lazy_init_fst env c b
  rw [he]

/-- The call counter never decreases across `setup`. -/
theorem setup_call_id_mono (env : Env) (c : Client) (q b : Bool) :
    c.call_id ≤ (setup env c q b).1.call_id := by
  unfold setup
  split
  · exact le_rfl
  · have hl := lazy_init_call_id env c b
    by_cases h2 : (lazy_init_ensime env c b).2 = true
    · by_cases hw : (!(lazy_init_ensime env c b).1.ws && env.isReady) = true
      · have hc := connect_call_id_mono env (lazy_init_ensime env c b).1
        simp [h2, hw]
        omega
      · simp [h2, hw]
        omega
    · simp [h2]
      omega

/-- `setup` never touches `call_options`. -/
theorem setup_call_options (env : Env) (c : Client) (q b : Bool) :
    (setup env c q b).1.call_options = c.call_options := by
  unfold setup
  split
  · rfl
  · have hl := lazy_init_call_options env c b
    by_cases h2 : (lazy_init_ensime env c b).2 = true
    · by_cases hw : (!(lazy_init_ensime env c b).1.ws && env.isReady) = true
      · have hc := connect_call_options env (lazy_init_ensime env c b).1
        simp [h2, hw]
        rw [hc, hl]
      · simp [h2, hw]
        exact hl
    · simp [h2]
      exact hl

/-- The call counter never decreases across `tick`. -/
theorem tick_call_id_mono (env : Env) (c : Client) :
    c.call_id ≤ (tick env c).1.call_id := by
  unfold tick
  split
  · have hs := setup_call_id_mono env c true false
    by_cases he : (setup env c true false).2.1.isSome = true
    · simp [he]
      omega
    · obtain ⟨q2, d2, e2, h2⟩ := unqueue_and_display_frame
        { (setup env c true false).1 with
            connection_attempts := (setup env c true false).1.connection_attempts + 1 }
      simp [he, h2]
      omega
  · obtain ⟨q2, d2, e2, h2⟩ := unqueue_and_display_frame c
    simp [h2]

/-- `tick` never touches `call_options`. -/
theorem tick_call_options (env : Env) (c : Client) :
    (tick env c).1.call_options = c.call_options := by
  unfold tick
  split
  · have hs := setup_call_options env c true false
    by_cases he : (setup env c true false).2.1.isSome = true
    · simp [he]
      exact hs
    · obtain ⟨q2, d2, e2, h2⟩ := unqueue_and_display_frame
        { (setup env c true false).1 with
            connection_attempts := (setup env c true false).1.connection_attempts + 1 }
      simp [he, h2]
      exact hs
  · obtain ⟨q2, d2, e2, h2⟩ := unqueue_and_display_frame c
    simp [h2]

/-- Projection of `send_request_shape`: the websocket is untouched. -/
theorem send_request_ws (env : Env) (x : Client) (r : Request) :
    (send_request env x r).1.ws = x.ws := by
  obtain ⟨a, b, d, h⟩ := send_request_shape env x r
  rw [h]

/-- Projection of `send_request_shape`: the queue is untouched. -/
theorem send_request_queue (env : Env) (x : Client) (r : Request) :
    (send_request env x r).1.queue = x.queue := by
  obtain ⟨a, b, d, h⟩ := send_request_shape env x r
  rw [h]

/-- Projection of `send_request_shape`: no dispatch happens. -/
theorem send_request_dispatched (env : Env) (x : Client) (r : Request) :
    (send_request env x r).1.dispatched = x.dispatched := by
  obtain ⟨a, b, d, h⟩ := send_request_shape env x r
  rw [h]

/-- Keys present in the options dict survive a dict assignment. -/
theorem dictInsert_mem_keys (k : Nat) (v : CallOpts)
    (d : List (Nat × CallOpts)) (k1 : Nat) (h : k1 ∈ d.map Prod.fst) :
    k1 ∈ (dictInsert k v d).map Prod.fst := by
  induction d with
  | nil => simp at h
  | cons hd tl ih =>
      obtain ⟨a, b⟩ := hd
      rw [List.map_cons, List.mem_cons] at h
      by_cases hk : k = a
      · rw [show dictInsert k v ((a, b) :: tl) = (k, v) :: tl from by
          simp [dictInsert, hk]]
        rw [List.map_cons, List.mem_cons]
        rcases h with h | h
        · left; rw [h]; exact hk.symm
        · right; exact h
      · rw [show dictInsert k v ((a, b) :: tl) = (a, b) :: dictInsert k v tl from by
          simp [dictInsert, hk]]
        rw [List.map_cons, List.mem_cons]
        rcases h with h | h
        · left; exact h
        · right; exact ih h

/-- `symbol_at_point_req` stores an entry under the current call id and
sends one request. -/
theorem symbol_at_point_req_call_options (env : Env) (c : Client)
    (od d : Bool) :
    ∃ v, (symbol_at_point_req env c od d).call_options
      = dictInsert c.call_id v c.call_options := by
  refine ⟨(match dictGet c.call_id c.call_options with
    | some o => { o with open_definition := od, display := d }
    | none => { CallOpts.empty with open_definition := od, display := d }), ?_⟩
  unfold symbol_at_point_req
  simp [send_request_call_options]

/-- `symbol_at_point_req` consumes exactly one call id. -/
theorem symbol_at_point_req_call_id (env : Env) (c : Client) (od d : Bool) :
    (symbol_at_point_req env c od d).call_id = c.call_id + 1 := by
  unfold symbol_at_point_req
  simp [send_request_call_id]

/-- `symbol_at_point_req` makes no connect attempt. -/
theorem symbol_at_point_req_wire (env : Env) (c : Client) (od d : Bool) :
    (symbol_at_point_req env c od d).wire_connects = c.wire_connects := by
  unfold symbol_at_point_req
  simp [send_request_wire_connects]

/-- `symbol_at_point_req` keeps the websocket and the retry budget. -/
theorem symbol_at_point_req_ws_ntc (env : Env) (c : Client) (od d : Bool) :
    (symbol_at_point_req env c od d).ws = c.ws
    ∧ (symbol_at_point_req env c od d).number_try_connection
        = c.number_try_connection := by
  unfold symbol_at_point_req
  constructor
  · simp [send_request_ws]
  · simp [send_request_ntc]

/-- `send_at_point` wraps one `send_request`. -/
theorem send_at_point_call_options (env : Env) (c : Client) (w : String)
    (row col : Nat) :
    (send_at_point env c w row col).call_options = c.call_options := by
  unfold send_at_point
  simp [send_request_call_options]

/-- `send_at_position` wraps one `send_request`. -/
theorem send_at_position_call_options (env : Env) (c : Client) (w : String) :
    (send_at_position env c w).call_options = c.call_options := by
  unfold send_at_position
  simp [send_request_call_options]

/-- `usages` stores an entry under the current call id. -/
theorem usages_call_options (env : Env) (c : Client) :
    ∃ v, (usages env c).call_options
      = dictInsert c.call_id v c.call_options := by
  refine ⟨{ CallOpts.empty with
      word_under_cursor := some env.currentWord,
      false_resp_msg := some "Not a valid symbol under the cursor" }, ?_⟩
  unfold usages
  simp [send_at_point_call_options]

/-- `doc_browse` stores an entry under the current call id. -/
theorem doc_browse_call_options (env : Env) (c : Client) :
    ∃ v, (doc_browse env c).call_options
      = dictInsert c.call_id v c.call_options := by
  refine ⟨{ CallOpts.empty with browse := true }, ?_⟩
  unfold doc_browse
  simp [send_at_position_call_options]

/-- `symbol_by_name` either refuses (no arguments) or stores an entry. -/
theorem symbol_by_name_call_options (env : Env) (c : Client)
    (args : List String) :
    (symbol_by_name env c args).call_options = c.call_options
    ∨ ∃ v, (symbol_by_name env c args).call_options
        = dictInsert c.call_id v c.call_options := by
  unfold symbol_by_name
  by_cases ha : args.isEmpty = true
  · left; simp [ha]
  · right
    exact ⟨{ CallOpts.empty with
        split := true, vert := true, open_definition := true },
      by simp [ha, send_request_call_options]⟩

/-- Keys survive `symbol_at_point_req` (an entry is stored or updated,
none removed). -/
theorem symbol_at_point_req_keys (env : Env) (x : Client) (od d : Bool)
    (k : Nat) (hk : k ∈ x.call_options.map Prod.fst) :
    k ∈ (symbol_at_point_req env x od d).call_options.map Prod.fst := by
  obtain ⟨v, hv⟩ := symbol_at_point_req_call_options env x od d
  rw [hv]
  exact dictInsert_mem_keys _ _ _ _ hk

/-- Keys survive `open_declaration_split`: it stores its own entry and then
updates it through `symbol_at_point_req`, removing nothing. -/
theorem open_declaration_split_keys (env : Env) (c : Client)
    (args : List String) (k : Nat)
    (h : k ∈ c.call_options.map Prod.fst) :
    k ∈ (open_declaration_split env c args).call_options.map Prod.fst := by
  unfold open_declaration_split
  apply symbol_at_point_req_keys
  exact dictInsert_mem_keys _ _ _ _ h

/-- One call id consumed by `usages`. -/
theorem usages_call_id (env : Env) (c : Client) :
    (usages env c).call_id = c.call_id + 1 := by
  unfold usages send_at_point
  simp [send_request_call_id]

/-- One call id consumed by `doc_browse`. -/
theorem doc_browse_call_id (env : Env) (c : Client) :
    (doc_browse env c).call_id = c.call_id + 1 := by
  unfold doc_browse send_at_position
  simp [send_request_call_id]

/-- The counter never decreases across `symbol_by_name`. -/
theorem symbol_by_name_call_id_mono (env : Env) (c : Client)
    (args : List String) :
    c.call_id ≤ (symbol_by_name env c args).call_id := by
  unfold symbol_by_name
  by_cases ha : args.isEmpty = true
  · simp [ha]
  · simp [ha, send_request_call_id]

/-- One call id consumed by `open_declaration_split`. -/
theorem open_declaration_split_call_id (env : Env) (c : Client)
    (args : List String) :
    (open_declaration_split env c args).call_id = c.call_id + 1 := by
  unfold open_declaration_split
  by_cases ha : args.contains "v" = true <;>
    simp [ha, symbol_at_point_req_call_id]

/-- `queue_poll_step` only appends to the queue. -/
theorem queue_poll_step_shape (c : Client) (raw : RawMsg) :
    ∃ q, queue_poll_step c raw = { c with queue := q } := by
  unfold queue_poll_step
  split
  · exact ⟨c.queue ++ [raw], rfl⟩
  · exact ⟨c.queue, rfl⟩

/-- `teardown` only clears `running` and may stop the server process. -/
theorem teardown_shape (c : Client) :
    ∃ st, teardown c = { c with running := false, ensime_stopped := st } := by
  unfold teardown shutdown_server
  by_cases h : (c.ensime && c.toggle_teardown) = true
  · exact ⟨true, by simp [h]⟩
  · exact ⟨c.ensime_stopped, by simp [h]⟩

/-- The call counter never decreases, whatever operation runs: no call id is
ever reused within a session's lifetime. -/
theorem applyOp_call_id_mono (env : Env) (op : Op) (c : Client) :
    c.call_id ≤ (applyOp env op c).call_id := by
  cases op with
  | opTick => exact tick_call_id_mono env c
  | opSetup q b => exact setup_call_id_mono env c q b
  | opConnect => exact connect_call_id_mono env c
  | opSend m =>
      obtain ⟨a, b, d, h⟩ := send_shape env c m
      simp [applyOp, h]
  | opSendRequest r => simp [applyOp, send_request_call_id]
  | opUnqueue t =>
      obtain ⟨q, d, e, h⟩ := unqueue_frame c t
      simp [applyOp, h]
  | opUnqueueAndDisplay =>
      obtain ⟨q, d, e, h⟩ := unqueue_and_display_frame c
      simp [applyOp, h]
  | opQueuePoll raw =>
      obtain ⟨q, h⟩ := queue_poll_step_shape c raw
      simp [applyOp, h]
  | opTeardown =>
      obtain ⟨st, h⟩ := teardown_shape c
      simp [applyOp, h]
  | opSymbolByName args => exact symbol_by_name_call_id_mono env c args
  | opSymbolAtPointReq od d => simp [applyOp, symbol_at_point_req_call_id]
  | opOpenDeclaration => simp [applyOp, open_declaration, symbol_at_point_req_call_id]
  | opOpenDeclarationSplit args => simp [applyOp, open_declaration_split_call_id]
  | opSymbol => simp [applyOp, symbol, symbol_at_point_req_call_id]
  | opUsages => simp [applyOp, usages_call_id]
  | opDocBrowse => simp [applyOp, doc_browse_call_id]
  | opComplete row col => simp [applyOp, complete, send_request_call_id]
  | opSuggestImport => simp [applyOp, suggest_import, send_request_call_id]
  | opInspectType => simp [applyOp, inspect_type, send_request_call_id]
  | opTypeCheck => simp [applyOp, type_check, send_request_call_id]

/-- No single operation removes a key from the correlation registry. -/
theorem applyOp_keys_mono (env : Env) (op : Op) (c : Client) (k : Nat)
    (h : k ∈ c.call_options.map Prod.fst) :
    k ∈ (applyOp env op c).call_options.map Prod.fst := by
  cases op with
  | opTick =>
      show k ∈ (tick env c).1.call_options.map Prod.fst
      rw [tick_call_options]; exact h
  | opSetup q b =>
      show k ∈ (setup env c q b).1.call_options.map Prod.fst
      rw [setup_call_options]; exact h
  | opConnect =>
      show k ∈ (connect_ensime_server env c).1.call_options.map Prod.fst
      rw [connect_call_options]; exact h
  | opSend m =>
      obtain ⟨a, b, d, hs⟩ := send_shape env c m
      show k ∈ (send env c m).call_options.map Prod.fst
      rw [hs]; exact h
  | opSendRequest r =>
      show k ∈ (send_request env c r).1.call_options.map Prod.fst
      rw [send_request_call_options]; exact h
  | opUnqueue t =>
      obtain ⟨q, d, e, hu⟩ := unqueue_frame c t
      show k ∈ (unqueue c t).1.call_options.map Prod.fst
      rw [hu]; exact h
  | opUnqueueAndDisplay =>
      obtain ⟨q, d, e, hu⟩ := unqueue_and_display_frame c
      show k ∈ (unqueue_and_display c).call_options.map Prod.fst
      rw [hu]; exact h
  | opQueuePoll raw =>
      obtain ⟨q, hq⟩ := queue_poll_step_shape c raw
      show k ∈ (queue_poll_step c raw).call_options.map Prod.fst
      rw [hq]; exact h
  | opTeardown =>
      obtain ⟨st, ht⟩ := teardown_shape c
      show k ∈ (teardown c).call_options.map Prod.fst
      rw [ht]; exact h
  | opSymbolByName args =>
      show k ∈ (symbol_by_name env c args).call_options.map Prod.fst
      rcases symbol_by_name_call_options env c args with hs | ⟨v, hs⟩
      · rw [hs]; exact h
      · rw [hs]; exact dictInsert_mem_keys _ _ _ _ h
  | opSymbolAtPointReq od d => exact symbol_at_point_req_keys env c od d k h
  | opOpenDeclaration => exact symbol_at_point_req_keys env c true false k h
  | opOpenDeclarationSplit args =>
      exact open_declaration_split_keys env c args k h
  | opSymbol => exact symbol_at_point_req_keys env c false true k h
  | opUsages =>
      obtain ⟨v, hu⟩ := usages_call_options env c
      show k ∈ (usages env c).call_options.map Prod.fst
      rw [hu]; exact dictInsert_mem_keys _ _ _ _ h
  | opDocBrowse =>
      obtain ⟨v, hd⟩ := doc_browse_call_options env c
      show k ∈ (doc_browse env c).call_options.map Prod.fst
      rw [hd]; exact dictInsert_mem_keys _ _ _ _ h
  | opComplete row col =>
      have hc : (complete env c row col).call_options = c.call_options := by
        unfold complete
        simp [send_request_call_options]
      show k ∈ (complete env c row col).call_options.map Prod.fst
      rw [hc]; exact h
  | opSuggestImport =>
      have hc : (suggest_import env c).call_options = c.call_options := by
        unfold suggest_import
        simp [send_request_call_options]
      show k ∈ (suggest_import env c).call_options.map Prod.fst
      rw [hc]; exact h
  | opInspectType =>
      have hc : (inspect_type env c).call_options = c.call_options := by
        unfold inspect_type
        simp [send_request_call_options]
      show k ∈ (inspect_type env c).call_options.map Prod.fst
      rw [hc]; exact h
  | opTypeCheck =>
      have hc : (type_check env c).call_options = c.call_options := by
        unfold type_check
        simp [send_request_call_options]
      show k ∈ (type_check env c).call_options.map Prod.fst
      rw [hc]; exact h

/-- No sequence of operations removes a key from the registry. -/
theorem applyOps_keys_mono (env : Env) (ops : List Op) :
    ∀ (c : Client) (k : Nat), k ∈ c.call_options.map Prod.fst →
      k ∈ (applyOps env ops c).call_options.map Prod.fst := by
  induction ops with
  | nil => intro c k h; exact h
  | cons op rest ih =>
      intro c k h
      exact ih (applyOp env op c) k (applyOp_keys_mono env op c k h)

/-- C10: a handle without an OS process reports `is_running = True`;
`aborted` is `True` exactly when the process was not stopped manually and
`is_running` is `False`; hence a handle with no OS process is never
aborted. -/
theorem ensime_process_aborted_spec (p : EnsimeProcess) :
    (p.process = none → is_running p = true)
    ∧ (aborted p = true ↔ (p.stopped_manually = false ∧ is_running p = false))
    ∧ (p.process = none → aborted p = false) := by
  refine ⟨?_, ?_, ?_⟩
  · intro h
    simp [is_running, h]
  · cases hs : p.stopped_manually <;> cases hr : is_running p <;>
      simp [aborted, hs, hr]
  · intro h
    simp [aborted, is_running, h]

/-- Witness for `ensime_process_aborted_spec` on the freshly constructed
handle with no OS process. -/
theorem ensime_process_aborted_witness :
    is_running (mkEnsimeProcess none) = true
    ∧ aborted (mkEnsimeProcess none) = false :=
  ⟨(ensime_process_aborted_spec (mkEnsimeProcess none)).1 rfl,
   (ensime_process_aborted_spec (mkEnsimeProcess none)).2.2 rfl⟩

/-- C1: the call ids returned by a sequence of `send_request` calls are the
integer interval starting at the entry counter, hence pairwise distinct and
strictly increasing; the first call of a fresh session returns 0; and the
counter never decreases under any modelled operation, so an id is never
reused within the session's lifetime. -/
theorem send_request_callIds (env : Env) (c : Client) (reqs : List Request) :
    (sendMany env c reqs).2 = List.range' c.call_id reqs.length
    ∧ List.Pairwise (fun i j => i < j) (sendMany env c reqs).2
    ∧ (∀ r rs, (sendMany env initialClient (r :: rs)).2.head? = some 0)
    ∧ (∀ op d, d.call_id ≤ (applyOp env op d).call_id) := by
  refine ⟨sendMany_ids env reqs c, ?_, ?_,
    fun op d => applyOp_call_id_mono env op d⟩
  · rw [sendMany_ids env reqs c]
    exact List.pairwise_lt_range' ..
  · intro r rs
    rw [sendMany_ids env (r :: rs) initialClient]
    rfl

/-- Witness for `send_request_callIds`: three requests on a fresh session
return the ids 0, 1, 2. -/
theorem send_request_callIds_witness :
    (sendMany envW initialClient
      [⟨"TypecheckFilesReq", none⟩, ⟨"CompletionsReq", some 3⟩,
       ⟨"SymbolAtPointReq", some 7⟩]).2 = [0, 1, 2] := by
  rw [(send_request_callIds envW initialClient
    [⟨"TypecheckFilesReq", none⟩, ⟨"CompletionsReq", some 3⟩,
     ⟨"SymbolAtPointReq", some 7⟩]).1]
  rfl

/-- C8: no client operation removes an entry from `call_options`: after any
single operation, and any sequence of operations, every key present before
is still present — entries created at send time accumulate for the
session's lifetime. -/
theorem call_options_never_shrinks (env : Env) (op : Op) (c : Client)
    (k : Nat) (h : k ∈ c.call_options.map Prod.fst) :
    k ∈ (applyOp env op c).call_options.map Prod.fst
    ∧ ∀ ops : List Op, k ∈ (applyOps env ops c).call_options.map Prod.fst :=
  ⟨applyOp_keys_mono env op c k h,
   fun ops => applyOps_keys_mono env ops c k h⟩

/-- Witness for `call_options_never_shrinks`: key 0 survives a `tick` and a
drain. -/
theorem call_options_never_shrinks_witness :
    (0 : Nat) ∈ clientW.call_options.map Prod.fst
    ∧ ((0 : Nat) ∈ (applyOp envW Op.opTick clientW).call_options.map Prod.fst
      ∧ ∀ ops : List Op,
          (0 : Nat) ∈ (applyOps envW ops clientW).call_options.map Prod.fst) :=
  ⟨by decide,
   call_options_never_shrinks envW Op.opTick clientW 0 (by decide)⟩

/-- `unqueue` on any non-empty queue pops exactly the head, appends that
head's dispatches, and reports its decodability. -/
theorem unqueue_cons_spec (c : Client) (t : Nat) (m : RawMsg)
    (rest : List RawMsg) (h : c.queue = m :: rest) :
    (unqueue c t).1.queue = rest
    ∧ (unqueue c t).1.dispatched = c.dispatched ++ dispatch_of m
    ∧ (unqueue c t).2 = decode_ok m := by
  cases m with
  | malformed =>
      rw [unqueue_malformed c t rest h]
      exact ⟨rfl, by simp [dispatch_of], rfl⟩
  | valid cid p =>
      cases p with
      | some pl =>
          rw [unqueue_valid_some c t cid pl rest h]
          exact ⟨rfl, rfl, rfl⟩
      | none =>
          rw [unqueue_valid_none c t cid rest h]
          exact ⟨rfl, by simp [dispatch_of], rfl⟩

/-- Iterated `unqueue` pops a prefix of the queue and dispatches it in
queue order. -/
theorem unqueueN_trace (n : Nat) :
    ∀ c : Client,
      (unqueueN c n).queue = c.queue.drop n
      ∧ (unqueueN c n).dispatched
          = c.dispatched ++ (c.queue.take n).flatMap dispatch_of := by
  induction n with
  | zero => intro c; exact ⟨rfl, by simp [unqueueN]⟩
  | succ n ih =>
      intro c
      match hq : c.queue with
      | [] =>
          obtain ⟨h1, h2⟩ := ih c
          rw [hq] at h1 h2
          constructor
          · rw [show unqueueN c (n + 1) = unqueueN (unqueue c 1).1 n from rfl,
              unqueue_empty c 1 hq, h1]
            simp
          · rw [show unqueueN c (n + 1) = unqueueN (unqueue c 1).1 n from rfl,
              unqueue_empty c 1 hq, h2]
            simp
      | m :: rest =>
          obtain ⟨h1, h2, h3⟩ := unqueue_cons_spec c 1 m rest hq
          obtain ⟨h4, h5⟩ := ih (unqueue c 1).1
          constructor
          · rw [show unqueueN c (n + 1) = unqueueN (unqueue c 1).1 n from rfl,
              h4, h1, List.drop_succ_cons]
          · rw [show unqueueN c (n + 1) = unqueueN (unqueue c 1).1 n from rfl,
              h5, h2, h1, List.take_succ_cons, List.flatMap_cons,
              List.append_assoc]

/-- A frame with a non-null payload dispatches exactly itself. -/
theorem dispatch_of_payload (m : RawMsg) (p : Payload)
    (h : payload_of m = some p) : dispatch_of m = [(callid_of m, p)] := by
  cases m with
  | malformed => simp [payload_of] at h
  | valid cid q =>
      cases q with
      | some pl =>
          simp [payload_of] at h
          simp [dispatch_of, callid_of, h]
      | none => simp [payload_of] at h

/-- C5: `unqueue(timeout)` pops at most one message; on an empty queue it
returns `False` and dispatches nothing, leaving the state unchanged; on a
non-empty queue it pops exactly the head, dispatches it precisely when its
payload is present and non-null, and returns `True` exactly when the popped
message decoded. -/
theorem unqueue_spec (c : Client) (t : Nat) :
    (∃ k, k ≤ 1 ∧ (unqueue c t).1.queue = c.queue.drop k)
    ∧ (c.queue = [] → unqueue c t = (c, false))
    ∧ (∀ m rest, c.queue = m :: rest →
        (unqueue c t).1.queue = rest
        ∧ (unqueue c t).1.dispatched = c.dispatched ++ dispatch_of m
        ∧ (dispatch_of m = [] ↔ payload_of m = none)
        ∧ (unqueue c t).2 = decode_ok m) := by
  refine ⟨?_, fun h => unqueue_empty c t h, ?_⟩
  · match hq : c.queue with
    | [] =>
        refine ⟨0, by omega, ?_⟩
        rw [unqueue_empty c t hq]
        exact hq
    | m :: rest =>
        obtain ⟨h1, h2, h3⟩ := unqueue_cons_spec c t m rest hq
        exact ⟨1, le_rfl, by rw [h1]; rfl⟩
  · intro m rest hq
    obtain ⟨h1, h2, h3⟩ := unqueue_cons_spec c t m rest hq
    refine ⟨h1, h2, ?_, h3⟩
    cases m with
    | malformed => simp [dispatch_of, payload_of]
    | valid cid q =>
        cases q with
        | some pl => simp [dispatch_of, payload_of]
        | none => simp [dispatch_of, payload_of]

/-- Witness for `unqueue_spec`: the single queued frame is popped,
dispatched and acknowledged. -/
theorem unqueue_spec_witness :
    clientOneMsg.queue = RawMsg.valid (some 0) (some ⟨"TypecheckResult"⟩) :: []
    ∧ ((unqueue clientOneMsg 1).1.queue = []
      ∧ (unqueue clientOneMsg 1).1.dispatched
          = clientOneMsg.dispatched
            ++ dispatch_of (RawMsg.valid (some 0) (some ⟨"TypecheckResult"⟩))
      ∧ (dispatch_of (RawMsg.valid (some 0) (some ⟨"TypecheckResult"⟩)) = []
          ↔ payload_of (RawMsg.valid (some 0) (some ⟨"TypecheckResult"⟩)) = none)
      ∧ (unqueue clientOneMsg 1).2
          = decode_ok (RawMsg.valid (some 0) (some ⟨"TypecheckResult"⟩))) :=
  ⟨rfl, (unqueue_spec clientOneMsg 1).2.2
    (RawMsg.valid (some 0) (some ⟨"TypecheckResult"⟩)) [] rfl⟩

/-- C2: the receive loop appends incoming frames to the back of the queue,
and draining dispatches in queue order: whenever frame `A` sits anywhere
before frame `B`, the dispatch of `A` occurs strictly before the dispatch
of `B` in the dispatch trace. -/
theorem fifo_dispatch_order (c : Client) (A B : RawMsg)
    (q1 q2 q3 : List RawMsg) (pA pB : Payload)
    (hq : c.queue = q1 ++ A :: (q2 ++ B :: q3))
    (hA : payload_of A = some pA) (hB : payload_of B = some pB) :
    (∀ (d : Client) (raw : RawMsg), d.running = true → d.ws = true →
        (queue_poll_step d raw).queue = d.queue ++ [raw])
    ∧ (unqueueN c c.queue.length).dispatched
        = c.dispatched ++ q1.flatMap dispatch_of
            ++ [(callid_of A, pA)] ++ q2.flatMap dispatch_of
            ++ [(callid_of B, pB)] ++ q3.flatMap dispatch_of := by
  constructor
  · intro d raw hr hw
    unfold queue_poll_step
    simp [hr, hw]
  · obtain ⟨h1, h2⟩ := unqueueN_trace c.queue.length c
    rw [h2, List.take_length, hq]
    simp [List.flatMap_append, List.flatMap_cons, dispatch_of_payload A pA hA,
      dispatch_of_payload B pB hB, List.append_assoc]

/-- Witness for `fifo_dispatch_order` with two concrete queued frames. -/
theorem fifo_dispatch_order_witness :
    (clientTwoMsgs.queue
        = [] ++ RawMsg.valid (some 0) (some ⟨"FrameA"⟩)
            :: ([] ++ RawMsg.valid none (some ⟨"FrameB"⟩) :: [])
      ∧ payload_of (RawMsg.valid (some 0) (some ⟨"FrameA"⟩)) = some ⟨"FrameA"⟩
      ∧ payload_of (RawMsg.valid none (some ⟨"FrameB"⟩)) = some ⟨"FrameB"⟩)
    ∧ (unqueueN clientTwoMsgs clientTwoMsgs.queue.length).dispatched
        = clientTwoMsgs.dispatched ++ [].flatMap dispatch_of
            ++ [(callid_of (RawMsg.valid (some 0) (some ⟨"FrameA"⟩)), ⟨"FrameA"⟩)]
            ++ [].flatMap dispatch_of
            ++ [(callid_of (RawMsg.valid none (some ⟨"FrameB"⟩)), ⟨"FrameB"⟩)]
            ++ [].flatMap dispatch_of :=
  ⟨⟨rfl, rfl, rfl⟩,
   (fifo_dispatch_order clientTwoMsgs
      (RawMsg.valid (some 0) (some ⟨"FrameA"⟩))
      (RawMsg.valid none (some ⟨"FrameB"⟩))
      [] [] [] ⟨"FrameA"⟩ ⟨"FrameB"⟩ rfl rfl rfl).2⟩

/-- A drain iteration whose `unqueue` reports `False` ends the loop. -/
theorem drain_loop_stop (c : Client) (n : Nat)
    (h : (unqueue c 0).2 = false) :
    drain_loop c (n + 1) = (unqueue c 0).1 := by
  rcases hu : unqueue c 0 with ⟨c1, b⟩
  rw [hu] at h
  simp only at h
  rw [drain_loop, hu, h]

/-- A drain iteration whose `unqueue` reports `True` continues. -/
theorem drain_loop_step (c : Client) (n : Nat)
    (h : (unqueue c 0).2 = true) :
    drain_loop c (n + 1) = drain_loop (unqueue c 0).1 n := by
  rcases hu : unqueue c 0 with ⟨c1, b⟩
  rw [hu] at h
  simp only at h
  rw [drain_loop, hu, h]

/-- Draining an empty queue is a no-op. -/
theorem unqueue_and_display_empty (c : Client) (hq : c.queue = []) :
    unqueue_and_display c = c := by
  unfold unqueue_and_display
  split
  · rw [show c.queue.length + 1 = 0 + 1 from by rw [hq]; rfl,
      drain_loop_stop c 0 (by rw [unqueue_empty c 0 hq]),
      unqueue_empty c 0 hq]
  · rfl

/-- A drain that meets a malformed head logs it, discards it, and stops:
the rest of the queue is left undispatched in this drain. -/
theorem unqueue_and_display_malformed_head (c : Client)
    (hr : c.running = true) (hw : c.ws = true) (rest : List RawMsg)
    (hq : c.queue = RawMsg.malformed :: rest) :
    unqueue_and_display c
      = { c with queue := rest, errors_logged := c.errors_logged + 1 } := by
  unfold unqueue_and_display
  rw [if_pos (by rw [hr, hw]; rfl),
    show c.queue.length + 1 = (rest.length + 1) + 1 from by rw [hq]; rfl,
    drain_loop_stop c (rest.length + 1) (by rw [unqueue_malformed c 0 rest hq]),
    unqueue_malformed c 0 rest hq]

/-- A drain over exactly one decodable frame with non-null payload
dispatches it and stops on the then-empty queue. -/
theorem unqueue_and_display_single_valid (c : Client)
    (hr : c.running = true) (hw : c.ws = true) (cid : Option Nat)
    (p : Payload) (hq : c.queue = [RawMsg.valid cid (some p)]) :
    unqueue_and_display c
      = { c with queue := [], dispatched := c.dispatched ++ [(cid, p)] } := by
  unfold unqueue_and_display
  rw [if_pos (by rw [hr, hw]; rfl),
    show c.queue.length + 1 = 1 + 1 from by rw [hq]; rfl,
    drain_loop_step c 1 (by rw [unqueue_valid_some c 0 cid p [] hq]),
    unqueue_valid_some c 0 cid p [] hq,
    drain_loop_stop _ 0 (by rw [unqueue_empty _ 0 rfl]),
    unqueue_empty _ 0 rfl]

/-- C4, counterexample: with one undecodable frame queued ahead of one
valid frame, a single drain produces no dispatch at all — the error return
of `unqueue` ends the `while self.unqueue(0)` loop, leaving the valid frame
queued.  This falsifies the claim that the same drain still dispatches the
valid message (exactly one dispatch after the one logged error). -/
theorem malformed_resilience_cex :
    (unqueue_and_display clientBadGood).dispatched = []
    ∧ (unqueue_and_display clientBadGood).errors_logged = 1
    ∧ (unqueue_and_display clientBadGood).queue
        = [RawMsg.valid (some 0) (some ⟨"TypecheckResult"⟩)] :=
  ⟨rfl, rfl, rfl⟩

/-- C4 (amended): the decode error is caught and logged without crashing,
and the malformed frame is discarded; but `unqueue` returns `False` for it,
which terminates the current drain, so the following valid frame stays
queued and is dispatched by the next drain call — one logged error, then
one dispatch, in that order, across two drains. -/
theorem malformed_logged_valid_next_drain (c : Client) (cid : Option Nat)
    (p : Payload) (hr : c.running = true) (hw : c.ws = true)
    (hq : c.queue = [RawMsg.malformed, RawMsg.valid cid (some p)]) :
    (unqueue_and_display c).dispatched = c.dispatched
    ∧ (unqueue_and_display c).errors_logged = c.errors_logged + 1
    ∧ (unqueue_and_display c).queue = [RawMsg.valid cid (some p)]
    ∧ (unqueue_and_display (unqueue_and_display c)).dispatched
        = c.dispatched ++ [(cid, p)]
    ∧ (unqueue_and_display (unqueue_and_display c)).errors_logged
        = c.errors_logged + 1
    ∧ (unqueue_and_display (unqueue_and_display c)).queue = [] := by
  have h1 := unqueue_and_display_malformed_head c hr hw
    [RawMsg.valid cid (some p)] hq
  have h2 := unqueue_and_display_single_valid
    { c with
        queue := [RawMsg.valid cid (some p)]
        errors_logged := c.errors_logged + 1 }
    hr hw cid p rfl
  refine ⟨by rw [h1], by rw [h1], by rw [h1], ?_, ?_, ?_⟩
  · rw [h1, h2]
  · rw [h1, h2]
  · rw [h1, h2]

/-- Witness for `malformed_logged_valid_next_drain` on a concrete client. -/
theorem malformed_logged_valid_next_drain_witness :
    (clientBadGood.running = true ∧ clientBadGood.ws = true
      ∧ clientBadGood.queue
          = [RawMsg.malformed,
             RawMsg.valid (some 0) (some ⟨"TypecheckResult"⟩)])
    ∧ ((unqueue_and_display clientBadGood).dispatched
          = clientBadGood.dispatched
      ∧ (unqueue_and_display clientBadGood).errors_logged
          = clientBadGood.errors_logged + 1
      ∧ (unqueue_and_display clientBadGood).queue
          = [RawMsg.valid (some 0) (some ⟨"TypecheckResult"⟩)]
      ∧ (unqueue_and_display (unqueue_and_display clientBadGood)).dispatched
          = clientBadGood.dispatched ++ [(some 0, ⟨"TypecheckResult"⟩)]
      ∧ (unqueue_and_display (unqueue_and_display clientBadGood)).errors_logged
          = clientBadGood.errors_logged + 1
      ∧ (unqueue_and_display (unqueue_and_display clientBadGood)).queue
          = []) :=
  ⟨⟨rfl, rfl, rfl⟩,
   malformed_logged_valid_next_drain clientBadGood (some 0)
     ⟨"TypecheckResult"⟩ rfl rfl rfl⟩

/-- With a websocket already present, `setup` never connects: it can only
set the `ensime` handle, and no exception escapes. -/
theorem setup_connected (env : Env) (c : Client) (q b : Bool)
    (hw : c.ws = true) :
    ∃ en, (setup env c q b).1 = { c with ensime := en }
      ∧ (setup env c q b).2.1 = none := by
  unfold setup
  split
  · exact ⟨c.ensime, rfl, rfl⟩
  · obtain ⟨en, he⟩ := lazy_init_fst env c b
    by_cases h2 : (lazy_init_ensime env c b).2 = true
    · have hws : (!(lazy_init_ensime env c b).1.ws && env.isReady) = false := by
        rw [he]
        simp [hw]
      refine ⟨en, ?_, ?_⟩
      · simp [h2, hws]
        exact he
      · simp [h2, hws]
    · refine ⟨en, ?_, ?_⟩
      · simp [h2]
        exact he
      · simp [h2]

/-- C7: a `tick` on a connected session with an empty queue performs no
connect attempt and no dispatch, and leaves the websocket, the queue,
`call_id`, `call_options` and the sent trace unchanged. -/
theorem tick_connected_noop (env : Env) (c : Client)
    (hw : c.ws = true) (hq : c.queue = []) :
    (tick env c).1.ws = c.ws
    ∧ (tick env c).1.queue = c.queue
    ∧ (tick env c).1.call_id = c.call_id
    ∧ (tick env c).1.call_options = c.call_options
    ∧ (tick env c).1.wire_connects = c.wire_connects
    ∧ (tick env c).1.dispatched = c.dispatched
    ∧ (tick env c).1.sent = c.sent := by
  suffices h : ∃ en ca, (tick env c).1
      = { c with ensime := en, connection_attempts := ca } by
    obtain ⟨en, ca, h⟩ := h
    rw [h, hq]
    exact ⟨rfl, rfl, rfl, rfl, rfl, rfl, rfl⟩
  unfold tick
  split
  · obtain ⟨en, hfst, herr⟩ := setup_connected env c true false hw
    have hsome : (setup env c true false).2.1.isSome = false := by
      rw [herr]
      rfl
    have hqueue2 : ({ (setup env c true false).1 with
        connection_attempts :=
          (setup env c true false).1.connection_attempts + 1 } : Client).queue
        = [] := by
      rw [hfst]
      exact hq
    refine ⟨en, c.connection_attempts + 1, ?_⟩
    simp only [hsome, Bool.false_eq_true, if_false]
    rw [unqueue_and_display_empty _ hqueue2, hfst]
  · refine ⟨c.ensime, c.connection_attempts, ?_⟩
    rw [unqueue_and_display_empty c hq]

/-- Witness for `tick_connected_noop` on a concrete connected client. -/
theorem tick_connected_noop_witness :
    (clientConnected.ws = true ∧ clientConnected.queue = [])
    ∧ ((tick envW clientConnected).1.ws = clientConnected.ws
      ∧ (tick envW clientConnected).1.queue = clientConnected.queue
      ∧ (tick envW clientConnected).1.call_id = clientConnected.call_id
      ∧ (tick envW clientConnected).1.call_options
          = clientConnected.call_options
      ∧ (tick envW clientConnected).1.wire_connects
          = clientConnected.wire_connects
      ∧ (tick envW clientConnected).1.dispatched = clientConnected.dispatched
      ∧ (tick envW clientConnected).1.sent = clientConnected.sent) :=
  ⟨⟨rfl, rfl⟩, tick_connected_noop envW clientConnected rfl rfl⟩

/-- C6 (behaviour of the code at the failing input): on a wire-send error
the exception is swallowed and logged inside `send_it`, the request is
dropped, and — because the outer `catch(Exception, reconnect)` never sees
the exception — no reconnect attempt and no resend happen, and nothing
propagates to the caller (the function is total and returns the mutated
state). -/
theorem send_error_no_reconnect (env : Env) (c : Client) (m : Nat × Request)
    (hr : c.running = true) (hw : c.ws = true)
    (hfail : env.sendOk c.wire_sends = false) :
    send env c m
      = { c with
            wire_sends := c.wire_sends + 1
            errors_logged := c.errors_logged + 1 }
    ∧ (send env c m).wire_connects = c.wire_connects
    ∧ (send env c m).sent = c.sent := by
  have h : send env c m
      = { c with
            wire_sends := c.wire_sends + 1
            errors_logged := c.errors_logged + 1 } := by
    unfold send
    simp [hr, hw, hfail]
  exact ⟨h, by rw [h], by rw [h]⟩

/-- Witness for `send_error_no_reconnect` on a concrete connected client
with an always-failing wire. -/
theorem send_error_no_reconnect_witness :
    (clientConnected.running = true ∧ clientConnected.ws = true
      ∧ envSendFail.sendOk clientConnected.wire_sends = false)
    ∧ (send envSendFail clientConnected (0, ⟨"TypecheckFilesReq", none⟩)
        = { clientConnected with
              wire_sends := clientConnected.wire_sends + 1
              errors_logged := clientConnected.errors_logged + 1 }
      ∧ (send envSendFail clientConnected
          (0, ⟨"TypecheckFilesReq", none⟩)).wire_connects
          = clientConnected.wire_connects
      ∧ (send envSendFail clientConnected
          (0, ⟨"TypecheckFilesReq", none⟩)).sent = clientConnected.sent) :=
  ⟨⟨rfl, rfl, rfl⟩,
   send_error_no_reconnect envSendFail clientConnected
     (0, ⟨"TypecheckFilesReq", none⟩) rfl rfl rfl⟩

/-- With the retry budget exhausted, `connect_ensime_server` only runs the
disable path: no connect attempt is made. -/
theorem connect_no_budget (env : Env) (c : Client)
    (h : c.number_try_connection = 0) :
    connect_ensime_server env c = (disable_completely false c, none) := by
  unfold connect_ensime_server
  simp [h]

/-- With budget one, a running client with a server handle and a failing
wire makes exactly one connect attempt, consumes the budget, disables
itself, and lets the `UnboundLocalError` escape. -/
theorem connect_fail_budget_one (env : Env) (c : Client)
    (hr : c.running = true) (hntc : c.number_try_connection = 1)
    (hens : c.ensime = true)
    (hfail : env.connectOk c.wire_connects = false) :
    connect_ensime_server env c
      = (disable_completely true
          { c with
              number_try_connection := 0
              ensime_server := true
              wire_connects := c.wire_connects + 1 },
         some PyErr.unboundLocal) := by
  unfold connect_ensime_server
  simp [hr, hntc, hens, hfail]

/-- `setup` on the same state: the failed connect escapes through it. -/
theorem setup_fail_budget_one (env : Env) (c : Client) (q b : Bool)
    (hr : c.running = true) (hntc : c.number_try_connection = 1)
    (hens : c.ensime = true) (hws : c.ws = false)
    (hready : env.isReady = true)
    (hfail : env.connectOk c.wire_connects = false) :
    setup env c q b
      = (disable_completely true
          { c with
              number_try_connection := 0
              ensime_server := true
              wire_connects := c.wire_connects + 1 },
         some PyErr.unboundLocal, false) := by
  unfold setup
  simp [hr, lazy_init_ensime, hens, hws, hready,
    connect_fail_budget_one env c hr hntc hens hfail]

/-- `tick` on the same state: one failed connect attempt, budget consumed,
session disabled, increment and drain skipped by the escaping exception. -/
theorem tick_fail_budget_one (env : Env) (c : Client)
    (hr : c.running = true) (hntc : c.number_try_connection = 1)
    (hens : c.ensime = true) (hws : c.ws = false)
    (hatt : c.connection_attempts < 1000)
    (hready : env.isReady = true)
    (hfail : env.connectOk c.wire_connects = false) :
    tick env c
      = (disable_completely true
          { c with
              number_try_connection := 0
              ensime_server := true
              wire_connects := c.wire_connects + 1 },
         some PyErr.unboundLocal) := by
  unfold tick
  rw [if_pos hatt]
  simp [setup_fail_budget_one env c true false hr hntc hens hws hready hfail]

/-- With the retry budget exhausted, `setup` makes no connect attempt,
keeps the budget at zero and never obtains a websocket. -/
theorem setup_no_budget (env : Env) (c : Client) (q b : Bool)
    (h : c.number_try_connection = 0) :
    (setup env c q b).1.wire_connects = c.wire_connects
    ∧ (setup env c q b).1.number_try_connection = 0
    ∧ (setup env c q b).1.ws = c.ws := by
  unfold setup
  split
  · exact ⟨rfl, h, rfl⟩
  · obtain ⟨en, he⟩ := lazy_init_fst env c b
    have hntc1 : (lazy_init_ensime env c b).1.number_try_connection = 0 := by
      rw [he]
      exact h
    have hwire : (lazy_init_ensime env c b).1.wire_connects = c.wire_connects := by
      rw [he]
    have hws0 : (lazy_init_ensime env c b).1.ws = c.ws := by
      rw [he]
    have hcb := connect_no_budget env (lazy_init_ensime env c b).1 hntc1
    obtain ⟨e1, w1, s1, hd⟩ := disable_shape false (lazy_init_ensime env c b).1
    by_cases h2 : (lazy_init_ensime env c b).2 = true
    · by_cases hw : (!(lazy_init_ensime env c b).1.ws && env.isReady) = true
      · refine ⟨?_, ?_, ?_⟩
        · dsimp only
          rw [if_pos h2, if_pos hw, hcb, hd]
          exact hwire
        · dsimp only
          rw [if_pos h2, if_pos hw, hcb, hd]
          exact hntc1
        · dsimp only
          rw [if_pos h2, if_pos hw, hcb, hd]
          exact hws0
      · refine ⟨?_, ?_, ?_⟩
        · dsimp only
          rw [if_pos h2, if_neg hw]
          exact hwire
        · dsimp only
          rw [if_pos h2, if_neg hw]
          exact hntc1
        · dsimp only
          rw [if_pos h2, if_neg hw]
          exact hws0
    · refine ⟨?_, ?_, ?_⟩
      · dsimp only
        rw [if_neg h2]
        exact hwire
      · dsimp only
        rw [if_neg h2]
        exact hntc1
      · dsimp only
        rw [if_neg h2]
        exact hws0

/-- With the retry budget exhausted, `tick` makes no connect attempt,
keeps the budget at zero and never obtains a websocket. -/
theorem tick_no_budget (env : Env) (c : Client)
    (h : c.number_try_connection = 0) :
    (tick env c).1.wire_connects = c.wire_connects
    ∧ (tick env c).1.number_try_connection = 0
    ∧ (tick env c).1.ws = c.ws := by
  unfold tick
  split
  · obtain ⟨hs1, hs2, hs3⟩ := setup_no_budget env c true false h
    obtain ⟨q2, d2, e2, hu⟩ := unqueue_and_display_frame
      { (setup env c true false).1 with
          connection_attempts :=
            (setup env c true false).1.connection_attempts + 1 }
    by_cases hsome : (setup env c true false).2.1.isSome = true
    · refine ⟨?_, ?_, ?_⟩
      · dsimp only
        rw [if_pos hsome]
        exact hs1
      · dsimp only
        rw [if_pos hsome]
        exact hs2
      · dsimp only
        rw [if_pos hsome]
        exact hs3
    · refine ⟨?_, ?_, ?_⟩
      · dsimp only
        rw [if_neg hsome, hu]
        exact hs1
      · dsimp only
        rw [if_neg hsome, hu]
        exact hs2
      · dsimp only
        rw [if_neg hsome, hu]
        exact hs3
  · obtain ⟨q2, d2, e2, hu⟩ := unqueue_and_display_frame c
    refine ⟨?_, ?_, ?_⟩
    · dsimp only
      rw [hu]
    · dsimp only
      rw [hu]
      exact h
    · dsimp only
      rw [hu]

/-- `send_at_point` makes no connect attempt. -/
theorem send_at_point_wire (env : Env) (c : Client) (w : String)
    (row col : Nat) :
    (send_at_point env c w row col).wire_connects = c.wire_connects := by
  unfold send_at_point
  simp [send_request_wire_connects]

/-- `send_at_point` keeps the websocket. -/
theorem send_at_point_ws (env : Env) (c : Client) (w : String)
    (row col : Nat) : (send_at_point env c w row col).ws = c.ws := by
  unfold send_at_point
  simp [send_request_ws]

/-- `send_at_point` keeps the retry budget. -/
theorem send_at_point_ntc (env : Env) (c : Client) (w : String)
    (row col : Nat) :
    (send_at_point env c w row col).number_try_connection
      = c.number_try_connection := by
  unfold send_at_point
  simp [send_request_ntc]

/-- `send_at_position` makes no connect attempt. -/
theorem send_at_position_wire (env : Env) (c : Client) (w : String) :
    (send_at_position env c w).wire_connects = c.wire_connects := by
  unfold send_at_position
  simp [send_request_wire_connects]

/-- `send_at_position` keeps the websocket. -/
theorem send_at_position_ws (env : Env) (c : Client) (w : String) :
    (send_at_position env c w).ws = c.ws := by
  unfold send_at_position
  simp [send_request_ws]

/-- `send_at_position` keeps the retry budget. -/
theorem send_at_position_ntc (env : Env) (c : Client) (w : String) :
    (send_at_position env c w).number_try_connection
      = c.number_try_connection := by
  unfold send_at_position
  simp [send_request_ntc]

/-- No operation of the session makes a connect attempt, revives the retry
budget, or obtains a websocket once the budget is exhausted. -/
theorem applyOp_no_budget (env : Env) (op : Op) (c : Client)
    (h : c.number_try_connection = 0) :
    (applyOp env op c).wire_connects = c.wire_connects
    ∧ (applyOp env op c).number_try_connection = 0
    ∧ (applyOp env op c).ws = c.ws := by
  cases op with
  | opTick => exact tick_no_budget env c h
  | opSetup q b => exact setup_no_budget env c q b h
  | opConnect =>
      have hcb := connect_no_budget env c h
      obtain ⟨e1, w1, s1, hd⟩ := disable_shape false c
      refine ⟨?_, ?_, ?_⟩
      · show (connect_ensime_server env c).1.wire_connects = c.wire_connects
        rw [hcb, hd]
      · show (connect_ensime_server env c).1.number_try_connection = 0
        rw [hcb, hd]
        exact h
      · show (connect_ensime_server env c).1.ws = c.ws
        rw [hcb, hd]
  | opSend m =>
      obtain ⟨a, b, d, hs⟩ := send_shape env c m
      refine ⟨?_, ?_, ?_⟩
      · show (send env c m).wire_connects = c.wire_connects
        rw [hs]
      · show (send env c m).number_try_connection = 0
        rw [hs]
        exact h
      · show (send env c m).ws = c.ws
        rw [hs]
  | opSendRequest r =>
      refine ⟨send_request_wire_connects env c r, ?_, send_request_ws env c r⟩
      show (send_request env c r).1.number_try_connection = 0
      rw [send_request_ntc]
      exact h
  | opUnqueue t =>
      obtain ⟨q, d, e, hu⟩ := unqueue_frame c t
      refine ⟨?_, ?_, ?_⟩
      · show (unqueue c t).1.wire_connects = c.wire_connects
        rw [hu]
      · show (unqueue c t).1.number_try_connection = 0
        rw [hu]
        exact h
      · show (unqueue c t).1.ws = c.ws
        rw [hu]
  | opUnqueueAndDisplay =>
      obtain ⟨q, d, e, hu⟩ := unqueue_and_display_frame c
      refine ⟨?_, ?_, ?_⟩
      · show (unqueue_and_display c).wire_connects = c.wire_connects
        rw [hu]
      · show (unqueue_and_display c).number_try_connection = 0
        rw [hu]
        exact h
      · show (unqueue_and_display c).ws = c.ws
        rw [hu]
  | opQueuePoll raw =>
      obtain ⟨q, hq⟩ := queue_poll_step_shape c raw
      refine ⟨?_, ?_, ?_⟩
      · show (queue_poll_step c raw).wire_connects = c.wire_connects
        rw [hq]
      · show (queue_poll_step c raw).number_try_connection = 0
        rw [hq]
        exact h
      · show (queue_poll_step c raw).ws = c.ws
        rw [hq]
  | opTeardown =>
      obtain ⟨st, ht⟩ := teardown_shape c
      refine ⟨?_, ?_, ?_⟩
      · show (teardown c).wire_connects = c.wire_connects
        rw [ht]
      · show (teardown c).number_try_connection = 0
        rw [ht]
        exact h
      · show (teardown c).ws = c.ws
        rw [ht]
  | opSymbolByName args =>
      refine ⟨?_, ?_, ?_⟩ <;>
        · simp only [applyOp]
          unfold symbol_by_name
          by_cases ha : args.isEmpty = true
          · simp [ha, h]
          · simp [ha, h, send_request_wire_connects, send_request_ntc,
              send_request_ws]
  | opSymbolAtPointReq od d =>
      obtain ⟨hws, hntc⟩ := symbol_at_point_req_ws_ntc env c od d
      refine ⟨symbol_at_point_req_wire env c od d, ?_, hws⟩
      show (symbol_at_point_req env c od d).number_try_connection = 0
      rw [hntc]
      exact h
  | opOpenDeclaration =>
      obtain ⟨hws, hntc⟩ := symbol_at_point_req_ws_ntc env c true false
      refine ⟨symbol_at_point_req_wire env c true false, ?_, hws⟩
      show (symbol_at_point_req env c true false).number_try_connection = 0
      rw [hntc]
      exact h
  | opOpenDeclarationSplit args =>
      refine ⟨?_, ?_, ?_⟩ <;>
        · simp only [applyOp]
          unfold open_declaration_split
          simp [symbol_at_point_req_wire, symbol_at_point_req_ws_ntc, h]
  | opSymbol =>
      obtain ⟨hws, hntc⟩ := symbol_at_point_req_ws_ntc env c false true
      refine ⟨symbol_at_point_req_wire env c false true, ?_, hws⟩
      show (symbol_at_point_req env c false true).number_try_connection = 0
      rw [hntc]
      exact h
  | opUsages =>
      refine ⟨?_, ?_, ?_⟩
      · show (usages env c).wire_connects = c.wire_connects
        unfold usages
        simp [send_at_point_wire]
      · show (usages env c).number_try_connection = 0
        unfold usages
        simp [send_at_point_ntc, h]
      · show (usages env c).ws = c.ws
        unfold usages
        simp [send_at_point_ws]
  | opDocBrowse =>
      refine ⟨?_, ?_, ?_⟩
      · show (doc_browse env c).wire_connects = c.wire_connects
        unfold doc_browse
        simp [send_at_position_wire]
      · show (doc_browse env c).number_try_connection = 0
        unfold doc_browse
        simp [send_at_position_ntc, h]
      · show (doc_browse env c).ws = c.ws
        unfold doc_browse
        simp [send_at_position_ws]
  | opComplete row col =>
      refine ⟨?_, ?_, ?_⟩ <;>
        · simp only [applyOp]
          unfold complete
          simp [send_request_wire_connects, send_request_ntc,
            send_request_ws, h]
  | opSuggestImport =>
      refine ⟨?_, ?_, ?_⟩ <;>
        · simp only [applyOp]
          unfold suggest_import
          simp [send_request_wire_connects, send_request_ntc,
            send_request_ws, h]
  | opInspectType =>
      refine ⟨?_, ?_, ?_⟩ <;>
        · simp only [applyOp]
          unfold inspect_type
          simp [send_request_wire_connects, send_request_ntc,
            send_request_ws, h]
  | opTypeCheck =>
      refine ⟨?_, ?_, ?_⟩ <;>
        · simp only [applyOp]
          unfold type_check
          simp [send_request_wire_connects, send_request_ntc,
            send_request_ws, h]

/-- Once the budget is exhausted, no sequence of operations ever makes a
connect attempt, revives the budget, or changes the websocket. -/
theorem applyOps_no_budget (env : Env) (ops : List Op) :
    ∀ c : Client, c.number_try_connection = 0 →
      (applyOps env ops c).wire_connects = c.wire_connects
      ∧ (applyOps env ops c).number_try_connection = 0
      ∧ (applyOps env ops c).ws = c.ws := by
  induction ops with
  | nil => intro c h; exact ⟨rfl, h, rfl⟩
  | cons op rest ih =>
      intro c h
      obtain ⟨h1, h2, h3⟩ := applyOp_no_budget env op c h
      obtain ⟨g1, g2, g3⟩ := ih (applyOp env op c) h2
      refine ⟨?_, ?_, ?_⟩
      · show (applyOps env rest (applyOp env op c)).wire_connects
            = c.wire_connects
        rw [g1, h1]
      · exact g2
      · show (applyOps env rest (applyOp env op c)).ws = c.ws
        rw [g3, h3]

/-- C3: with `number_try_connection = 1`, the first failing `tick` makes
the only wire connect attempt, consumes the budget and leaves the session
disabled (budget zero, no websocket); the second `tick` makes no attempt
and stays disabled; a third `tick` makes no further connect attempt; and
once the budget is exhausted no sequence of operations ever makes another
connect attempt or obtains a websocket (until explicit teardown/restart,
which never revives the budget either). -/
theorem bounded_retry_disables (env : Env) (c : Client)
    (hr : c.running = true) (hens : c.ensime = true) (hws : c.ws = false)
    (hntc : c.number_try_connection = 1)
    (hatt : c.connection_attempts < 1000)
    (hready : env.isReady = true)
    (hfail : env.connectOk c.wire_connects = false) :
    ((tick env c).1.number_try_connection = 0
      ∧ (tick env c).1.ws = false
      ∧ (tick env c).1.wire_connects = c.wire_connects + 1)
    ∧ ((tick env (tick env c).1).1.wire_connects = (tick env c).1.wire_connects
      ∧ (tick env (tick env c).1).1.number_try_connection = 0
      ∧ (tick env (tick env c).1).1.ws = false)
    ∧ ((tick env (tick env (tick env c).1).1).1.wire_connects
        = (tick env (tick env c).1).1.wire_connects
      ∧ (tick env (tick env (tick env c).1).1).1.ws = false)
    ∧ (∀ (d : Client) (ops : List Op), d.number_try_connection = 0 →
        (applyOps env ops d).wire_connects = d.wire_connects
        ∧ (applyOps env ops d).number_try_connection = 0
        ∧ (applyOps env ops d).ws = d.ws) := by
  have h1 := tick_fail_budget_one env c hr hntc hens hws hatt hready hfail
  obtain ⟨e1, w1, s1, hd⟩ := disable_shape true
    { c with
        number_try_connection := 0
        ensime_server := true
        wire_connects := c.wire_connects + 1 }
  have ht1ntc : (tick env c).1.number_try_connection = 0 := by
    rw [h1, hd]
  have ht1ws : (tick env c).1.ws = false := by
    rw [h1, hd]
    exact hws
  have ht1wire : (tick env c).1.wire_connects = c.wire_connects + 1 := by
    rw [h1, hd]
  obtain ⟨w2, n2, ws2⟩ := tick_no_budget env (tick env c).1 ht1ntc
  obtain ⟨w3, n3, ws3⟩ := tick_no_budget env (tick env (tick env c).1).1 n2
  exact ⟨⟨ht1ntc, ht1ws, ht1wire⟩,
    ⟨w2, n2, ws2.trans ht1ws⟩,
    ⟨w3, ws3.trans (ws2.trans ht1ws)⟩,
    fun d ops hd0 => applyOps_no_budget env ops d hd0⟩

/-- Witness for `bounded_retry_disables` on a fresh client with a launched
server under an always-failing connect oracle. -/
theorem bounded_retry_disables_witness :
    (clientReady.running = true ∧ clientReady.ensime = true
      ∧ clientReady.ws = false ∧ clientReady.number_try_connection = 1
      ∧ clientReady.connection_attempts < 1000
      ∧ envW.isReady = true
      ∧ envW.connectOk clientReady.wire_connects = false)
    ∧ (((tick envW clientReady).1.number_try_connection = 0
        ∧ (tick envW clientReady).1.ws = false
        ∧ (tick envW clientReady).1.wire_connects
            = clientReady.wire_connects + 1)
      ∧ ((tick envW (tick envW clientReady).1).1.wire_connects
            = (tick envW clientReady).1.wire_connects
        ∧ (tick envW (tick envW clientReady).1).1.number_try_connection = 0
        ∧ (tick envW (tick envW clientReady).1).1.ws = false)
      ∧ ((tick envW (tick envW (tick envW clientReady).1).1).1.wire_connects
            = (tick envW (tick envW clientReady).1).1.wire_connects
        ∧ (tick envW (tick envW (tick envW clientReady).1).1).1.ws = false)
      ∧ (∀ (d : Client) (ops : List Op), d.number_try_connection = 0 →
          (applyOps envW ops d).wire_connects = d.wire_connects
          ∧ (applyOps envW ops d).number_try_connection = 0
          ∧ (applyOps envW ops d).ws = d.ws)) :=
  ⟨⟨rfl, rfl, rfl, rfl, by decide, rfl, rfl⟩,
   bounded_retry_disables envW clientReady rfl rfl rfl rfl (by decide)
     rfl rfl⟩

end EnsimeVim
